import Mathlib

/-!
Shallow embedding of the qwen-auth-opencode repository: the rate limiter
(`RateLimiter` in the rate-limit module), the credential encryption envelope
(AES-256-GCM `encrypt`/`decrypt` in the encryption module), the Qwen OAuth
device-flow polling loop (`QwenOAuthDeviceFlow.waitForAuthorization` and the
PKCE helpers in `src/auth/jwt.ts` area), and the OAuth/JWT provider token
staleness and refresh logic (`OAuthAuthProvider`, `JwtAuthProvider`).

Conventions of the embedding:
* Timestamps (`Date.now()` values, `windowStart`, `lockedUntil`, `expiresAt`)
  are natural numbers of milliseconds where all reachable values are
  non-negative, and integers where the source subtracts possibly past the
  zero point (`tokenExpiresAt - bufferMs`).
* JavaScript strings are `List Char`; byte buffers are `List Nat` with every
  entry below 256.
* Node `crypto` primitives (scrypt, AES-256-GCM, SHA-256) are external to the
  repository; they enter the model as explicit function parameters, with the
  properties the Node implementation guarantees stated as hypotheses.
* Stateful methods become pure functions from the method's inputs and the
  current object state to the result and the updated state.
-/

/-! ### Rate limiter (rate-limit module)

`RateLimitState` mirrors the per-identifier record `{ attempts, windowStart,
lockedUntil }`; `lockedUntil : number | null` becomes `Option Nat`.  Since the
`Map<string, RateLimitState>` treats identifiers independently, the embedding
tracks a single identifier's entry as `Option RateLimitState` (`none` = absent
from the map / deleted). -/

structure RateLimitState where
  attempts : Nat
  windowStart : Nat
  lockedUntil : Option Nat
deriving DecidableEq, Repr

structure RateLimitConfig where
  maxAttempts : Nat
  windowMs : Nat
  lockoutMs : Nat
  enabled : Bool
deriving DecidableEq, Repr

/-- The JS truthiness test `state.lockedUntil && now < state.lockedUntil`
(with `lockedUntil : number | null`; a stored `0` is falsy in JS, and for
`Nat` the comparison `now < 0` is false, so the two agree). -/
def lockedNow (now : Nat) : Option RateLimitState → Bool
  | none => false
  | some s =>
    match s.lockedUntil with
    | some l => decide (now < l)
    | none => false

/-- `RateLimiter.isRateLimited`, as a function of the current time and the
identifier's map entry.  Returns the boolean result and the updated entry
(the window-expired branch deletes the entry). -/
def isRateLimited (cfg : RateLimitConfig) (now : Nat)
    (st : Option RateLimitState) : Bool × Option RateLimitState :=
  if !cfg.enabled then (false, st)
  else
    match st with
    | none => (false, none)
    | some s =>
      if lockedNow now (some s) then (true, some s)
      else if now - s.windowStart > cfg.windowMs then (false, none)
      else (decide (s.attempts ≥ cfg.maxAttempts), some s)

/-- `RateLimiter.recordAttempt`: returns `true` if the attempt is allowed,
`false` if rate limited, together with the identifier's updated map entry. -/
def recordAttempt (cfg : RateLimitConfig) (now : Nat)
    (st : Option RateLimitState) : Bool × Option RateLimitState :=
  if !cfg.enabled then (true, st)
  else if lockedNow now st then (false, st)
  else
    let s :=
      match st with
      | none => { attempts := 0, windowStart := now, lockedUntil := none : RateLimitState }
      | some s0 =>
        if now - s0.windowStart > cfg.windowMs then
          { attempts := 0, windowStart := now, lockedUntil := none }
        else s0
    let s2 := { s with attempts := s.attempts + 1 }
    if s2.attempts > cfg.maxAttempts then
      (false, some { s2 with lockedUntil := some (now + cfg.lockoutMs) })
    else
      (true, some s2)

/-- The configuration of the C3 scenario. -/
def cfg3 : RateLimitConfig :=
  { maxAttempts := 3, windowMs := 1000, lockoutMs := 5000, enabled := true }

/-- C3: with `maxAttempts = 3, windowMs = 1000, lockoutMs = 5000`, for any
identifier (whose map entry starts absent) and any monotone times
`t1 ≤ t2 ≤ t3 ≤ t4` within one window (`t4 ≤ t1 + 1000`): the first three
`recordAttempt` calls return `true`; the fourth returns `false` and sets
`lockedUntil = t4 + lockoutMs`, so `isRateLimited` is `true` at any `t` with
`t4 ≤ t < t4 + 5000`; and at any `t5 ≥ t4 + 5000` the lockout is over:
`isRateLimited` is `false` (and deletes the entry), and a subsequent
`recordAttempt` behaves exactly as the first call of a fresh window. -/
theorem c3_rate_limiter_scenario
    (t1 t2 t3 t4 t t5 : Nat)
    (h12 : t1 ≤ t2) (h23 : t2 ≤ t3) (h34 : t3 ≤ t4)
    (hwin : t4 ≤ t1 + 1000)
    (ht1 : t4 ≤ t) (ht2 : t < t4 + 5000)
    (h5 : t4 + 5000 ≤ t5) :
    recordAttempt cfg3 t1 none = (true, some ⟨1, t1, none⟩) ∧
    recordAttempt cfg3 t2 (some ⟨1, t1, none⟩) = (true, some ⟨2, t1, none⟩) ∧
    recordAttempt cfg3 t3 (some ⟨2, t1, none⟩) = (true, some ⟨3, t1, none⟩) ∧
    recordAttempt cfg3 t4 (some ⟨3, t1, none⟩) =
      (false, some ⟨4, t1, some (t4 + 5000)⟩) ∧
    (isRateLimited cfg3 t (some ⟨4, t1, some (t4 + 5000)⟩)).1 = true ∧
    isRateLimited cfg3 t5 (some ⟨4, t1, some (t4 + 5000)⟩) = (false, none) ∧
    recordAttempt cfg3 t5 (some ⟨4, t1, some (t4 + 5000)⟩) =
      recordAttempt cfg3 t5 none ∧
    recordAttempt cfg3 t5 none = (true, some ⟨1, t5, none⟩) := by
  have hw2 : ¬ (1000 < t2 - t1) := by omega
  have hw3 : ¬ (1000 < t3 - t1) := by omega
  have hw4 : ¬ (1000 < t4 - t1) := by omega
  have hw5 : 1000 < t5 - t1 := by omega
  have hnl : ¬ (t5 < t4 + 5000) := by omega
  refine ⟨?_, ?_, ?_, ?_, ?_, ?_, ?_, ?_⟩
  · simp [recordAttempt, lockedNow, cfg3]
  · simp [recordAttempt, lockedNow, cfg3, hw2]
  · simp [recordAttempt, lockedNow, cfg3, hw3]
  · simp [recordAttempt, lockedNow, cfg3, hw4]
  · simp [isRateLimited, lockedNow, cfg3, ht2]
  · simp [isRateLimited, lockedNow, cfg3, hnl, hw5]
  · simp [recordAttempt, lockedNow, cfg3, hnl, hw5]
  · simp [recordAttempt, lockedNow, cfg3]

/-- Witness for C3 at the concrete times `t1 = t2 = t3 = t4 = t = 0`,
`t5 = 5000`. -/
theorem c3_rate_limiter_scenario_witness :
    recordAttempt cfg3 0 none = (true, some ⟨1, 0, none⟩) ∧
    recordAttempt cfg3 0 (some ⟨1, 0, none⟩) = (true, some ⟨2, 0, none⟩) ∧
    recordAttempt cfg3 0 (some ⟨2, 0, none⟩) = (true, some ⟨3, 0, none⟩) ∧
    recordAttempt cfg3 0 (some ⟨3, 0, none⟩) = (false, some ⟨4, 0, some 5000⟩) ∧
    (isRateLimited cfg3 0 (some ⟨4, 0, some 5000⟩)).1 = true ∧
    isRateLimited cfg3 5000 (some ⟨4, 0, some 5000⟩) = (false, none) ∧
    recordAttempt cfg3 5000 (some ⟨4, 0, some 5000⟩) =
      recordAttempt cfg3 5000 none ∧
    recordAttempt cfg3 5000 none = (true, some ⟨1, 5000, none⟩) :=
  c3_rate_limiter_scenario 0 0 0 0 0 5000 (by decide) (by decide) (by decide)
    (by decide) (by decide) (by decide) (by decide)

/-- C10: while a lockout is active (`now < lockedUntil`), `recordAttempt`
returns `false` and leaves the identifier's entry exactly as it was:
`attempts`, `windowStart` and `lockedUntil` are all unchanged. -/
theorem c10_locked_attempt_frame
    (cfg : RateLimitConfig) (now l : Nat) (s : RateLimitState)
    (hen : cfg.enabled = true) (hl : s.lockedUntil = some l) (hnow : now < l) :
    recordAttempt cfg now (some s) = (false, some s) := by
  simp [recordAttempt, lockedNow, hen, hl, hnow]

/-- Witness for C10: an active lockout at `now = 0 < lockedUntil = 5`. -/
theorem c10_locked_attempt_frame_witness :
    recordAttempt cfg3 0 (some ⟨2, 0, some 5⟩) = (false, some ⟨2, 0, some 5⟩) :=
  c10_locked_attempt_frame cfg3 0 5 ⟨2, 0, some 5⟩ rfl rfl (by decide)

/-! ### OAuth and JWT auth providers (`OAuthAuthProvider`, `JwtAuthProvider`)

`TOKEN_SETTINGS.refreshBufferSeconds = 300` from `src/constants.ts`.  Both
providers share `shouldRefresh(): Date.now() >= tokenExpiresAt - bufferMs`;
timestamps are `Int` because the source subtracts the buffer before
comparing.  The network call inside `refresh()` (`refreshAccessToken` /
`generateToken`) is external; its outcome enters as a `RefreshOutcome`
parameter: `success` carries the fields of the token response the provider
reads, `failure` stands for any rejected request (the `catch` branch). -/

def refreshBufferSeconds : Nat := 300

/-- `shouldRefresh()` of both providers:
`Date.now() >= this.tokenExpiresAt - bufferMs`. -/
def shouldRefresh (now tokenExpiresAt : Int) : Bool :=
  decide (now ≥ tokenExpiresAt - (refreshBufferSeconds : Int) * 1000)

structure OAuthState where
  accessToken : Option String
  refreshToken : Option String
  tokenExpiresAt : Int
  authenticated : Bool
deriving DecidableEq, Repr

inductive RefreshOutcome where
  /-- The token endpoint answered OK with these fields
  (`refresh_token` and `scope` are optional in the response). -/
  | success (accessToken : String) (newRefreshToken : Option String)
      (expiresIn : Int)
  /-- The request was rejected or threw. -/
  | failure
deriving DecidableEq, Repr

/-- `OAuthAuthProvider.refresh()`: with no refresh token, or when
`refreshAccessToken()` throws, it marks the provider unauthenticated and
returns `false`; on success it stores the new tokens and returns `true`. -/
def OAuthState.refresh (st : OAuthState) (now : Int)
    (outcome : RefreshOutcome) : Bool × OAuthState :=
  match st.refreshToken with
  | none => (false, { st with authenticated := false })
  | some _ =>
    match outcome with
    | .failure => (false, { st with authenticated := false })
    | .success tok newRt expiresIn =>
      (true,
        { st with
          accessToken := some tok
          refreshToken := match newRt with
            | some r => some r
            | none => st.refreshToken
          tokenExpiresAt := now + expiresIn * 1000 })

/-- `OAuthAuthProvider.getToken()`: refresh when stale, return `null`
when the refresh fails, otherwise the current access token. -/
def OAuthState.getToken (st : OAuthState) (now : Int)
    (outcome : RefreshOutcome) : Option String × OAuthState :=
  if shouldRefresh now st.tokenExpiresAt then
    let r := st.refresh now outcome
    if r.1 then (r.2.accessToken, r.2) else (none, r.2)
  else
    (st.accessToken, st)

/-- `OAuthAuthProvider.isAuthenticated()`:
`this.authenticated && !this.isExpired()`. -/
def OAuthState.isAuthenticated (st : OAuthState) (now : Int) : Bool :=
  st.authenticated && !decide (now ≥ st.tokenExpiresAt)

structure JwtState where
  currentToken : Option String
  tokenExpiresAt : Int
  authenticated : Bool
deriving DecidableEq, Repr

/-- `JwtAuthProvider.refresh()`: regenerates the JWT; on any exception it
marks the provider unauthenticated and returns `false`.  A successful
`generateToken()` stores the token and its expiry (epoch ms). -/
def JwtState.refresh (st : JwtState) (outcome : RefreshOutcome) :
    Bool × JwtState :=
  match outcome with
  | .failure => (false, { st with authenticated := false })
  | .success tok _ expMs =>
    (true, { st with currentToken := some tok, tokenExpiresAt := expMs })

/-- `JwtAuthProvider.getToken()`: same staleness-then-refresh shape as the
OAuth provider. -/
def JwtState.getToken (st : JwtState) (now : Int)
    (outcome : RefreshOutcome) : Option String × JwtState :=
  if shouldRefresh now st.tokenExpiresAt then
    let r := st.refresh outcome
    if r.1 then (r.2.currentToken, r.2) else (none, r.2)
  else
    (st.currentToken, st)

/-! ### Base64 and base64url (Node `Buffer` transport encodings)

`Buffer.toString("base64")` / `Buffer.from(s, "base64")` and the unpadded
`"base64url"` variant, over byte lists (`List Nat`, entries < 256) and
JS strings (`List Char`). -/

def base64Chars : List Char :=
  "ABCDEFGHIJKLMNOPQRSTUVWXYZabcdefghijklmnopqrstuvwxyz0123456789+/".data

def base64urlChars : List Char :=
  "ABCDEFGHIJKLMNOPQRSTUVWXYZabcdefghijklmnopqrstuvwxyz0123456789-_".data

def b64alpha (n : Nat) : Char := base64Chars.getD n 'A'

def b64urlAlpha (n : Nat) : Char := base64urlChars.getD n 'A'

def b64inv (c : Char) : Nat := base64Chars.indexOf c

/-- Standard padded base64 of a byte list. -/
def b64encode : List Nat → List Char
  | [] => []
  | [a] => [b64alpha (a / 4), b64alpha (a % 4 * 16), '=', '=']
  | [a, b] =>
    [b64alpha (a / 4), b64alpha (a % 4 * 16 + b / 16), b64alpha (b % 16 * 4), '=']
  | a :: b :: c :: rest =>
    b64alpha (a / 4) :: b64alpha (a % 4 * 16 + b / 16) ::
      b64alpha (b % 16 * 4 + c / 64) :: b64alpha (c % 64) :: b64encode rest

/-- Base64 decoding of well-formed (padded) base64 text. -/
def b64decode : List Char → List Nat
  | c1 :: c2 :: c3 :: c4 :: rest =>
    if c3 = '=' then [b64inv c1 * 4 + b64inv c2 / 16]
    else if c4 = '=' then
      [b64inv c1 * 4 + b64inv c2 / 16, b64inv c2 % 16 * 16 + b64inv c3 / 4]
    else
      (b64inv c1 * 4 + b64inv c2 / 16) ::
        (b64inv c2 % 16 * 16 + b64inv c3 / 4) ::
        (b64inv c3 % 4 * 64 + b64inv c4) :: b64decode rest
  | _ => []

/-- Unpadded base64url of a byte list (Node `toString("base64url")`). -/
def b64urlEncode : List Nat → List Char
  | [] => []
  | [a] => [b64urlAlpha (a / 4), b64urlAlpha (a % 4 * 16)]
  | [a, b] =>
    [b64urlAlpha (a / 4), b64urlAlpha (a % 4 * 16 + b / 16), b64urlAlpha (b % 16 * 4)]
  | a :: b :: c :: rest =>
    b64urlAlpha (a / 4) :: b64urlAlpha (a % 4 * 16 + b / 16) ::
      b64urlAlpha (b % 16 * 4 + c / 64) :: b64urlAlpha (c % 64) :: b64urlEncode rest

theorem b64inv_alpha : ∀ n : Nat, n < 64 → b64inv (b64alpha n) = n := by decide

theorem b64alpha_ne_pad : ∀ n : Nat, n < 64 → b64alpha n ≠ '=' := by decide

/-- Base64 decoding inverts encoding on byte lists. -/
theorem b64decode_encode (bs : List Nat) (h : ∀ b ∈ bs, b < 256) :
    b64decode (b64encode bs) = bs := by
  induction bs using b64encode.induct with
  | case1 => simp [b64encode, b64decode]
  | case2 a =>
    have ha : a < 256 := h a (by simp)
    simp only [b64encode, b64decode]
    rw [if_pos trivial]
    rw [b64inv_alpha _ (by omega), b64inv_alpha _ (by omega)]
    simp only [List.cons.injEq, and_true]
    omega
  | case3 a b =>
    have ha : a < 256 := h a (by simp)
    have hb : b < 256 := h b (by simp)
    simp only [b64encode, b64decode]
    rw [if_neg (b64alpha_ne_pad _ (by omega)), if_pos trivial]
    rw [b64inv_alpha _ (by omega), b64inv_alpha _ (by omega),
      b64inv_alpha _ (by omega)]
    simp only [List.cons.injEq, and_true]
    constructor <;> omega
  | case4 a b c rest ih =>
    have ha : a < 256 := h a (by simp)
    have hb : b < 256 := h b (by simp)
    have hc : c < 256 := h c (by simp)
    have hrest : ∀ x ∈ rest, x < 256 := fun x hx => h x (by simp [hx])
    simp only [b64encode, b64decode]
    rw [if_neg (b64alpha_ne_pad _ (by omega)),
      if_neg (b64alpha_ne_pad _ (by omega))]
    rw [b64inv_alpha _ (by omega), b64inv_alpha _ (by omega),
      b64inv_alpha _ (by omega), b64inv_alpha _ (by omega)]
    rw [ih hrest]
    simp only [List.cons.injEq, and_true]
    refine ⟨by omega, by omega, by omega⟩

/-- Every base64url output character is in the base64url alphabet. -/
theorem b64urlAlpha_mem (n : Nat) : b64urlAlpha n ∈ base64urlChars := by
  rcases Nat.lt_or_ge n 64 with h | h
  · revert h; revert n; decide
  · unfold b64urlAlpha
    rw [List.getD_eq_default]
    · decide
    · simpa [base64urlChars] using h

theorem base64urlChars_ascii : ∀ c ∈ base64urlChars, c.toNat < 128 := by decide

theorem b64urlEncode_mem (bs : List Nat) :
    ∀ ch ∈ b64urlEncode bs, ch ∈ base64urlChars := by
  induction bs using b64urlEncode.induct with
  | case1 => simp [b64urlEncode]
  | case2 a =>
    intro ch hch
    simp only [b64urlEncode, List.mem_cons, List.not_mem_nil, or_false] at hch
    rcases hch with h | h <;> (rw [h]; exact b64urlAlpha_mem _)
  | case3 a b =>
    intro ch hch
    simp only [b64urlEncode, List.mem_cons, List.not_mem_nil, or_false] at hch
    rcases hch with h | h | h <;> (rw [h]; exact b64urlAlpha_mem _)
  | case4 a b c rest ih =>
    intro ch hch
    simp only [b64urlEncode, List.mem_cons] at hch
    rcases hch with h | h | h | h | h
    · rw [h]; exact b64urlAlpha_mem _
    · rw [h]; exact b64urlAlpha_mem _
    · rw [h]; exact b64urlAlpha_mem _
    · rw [h]; exact b64urlAlpha_mem _
    · exact ih ch h

/-- Length of the unpadded base64url encoding. -/
theorem b64urlEncode_length (bs : List Nat) :
    (b64urlEncode bs).length = (bs.length * 4 + 2) / 3 := by
  induction bs using b64urlEncode.induct with
  | case1 => simp [b64urlEncode]
  | case2 a => simp [b64urlEncode]
  | case3 a b => simp [b64urlEncode]
  | case4 a b c rest ih =>
    simp only [b64urlEncode, List.length_cons, ih]
    omega

/-! ### Qwen OAuth device flow polling (`QwenOAuthDeviceFlow.waitForAuthorization`)

`pollDeviceToken` resolves to the token response, or to `"pending"` /
`"slow_down"` for those two OAuth error codes (any other error propagates as
an exception out of the loop and is not part of these claims).  The loop
`for (attempt = 0; attempt < maxPollAttempts; attempt++)` becomes structural
recursion on the remaining attempts (`fuel`), with `k` the index of the next
poll; the scripted endpoint behaviour is a function `poll : Nat → PollResult`
of that index.  `pollIntervalMs` is a `Rat`, since `interval * 1.5` need not
stay integral.  The returned `List Rat` is the log of the `sleep` durations
the loop performed, in order. -/

structure QwenTokenResponse where
  access_token : String
  token_type : String
  expires_in : Nat
  refresh_token : Option String
deriving DecidableEq, Repr

inductive PollResult where
  | pending
  | slowDown
  | success (resp : QwenTokenResponse)
deriving DecidableEq, Repr

def authorizationTimeoutMsg : String :=
  "Authorization timeout - user did not complete authorization in time"

/-- The polling loop of `waitForAuthorization` (the `cancelled` flag stays
`false`: cancellation is driven by a concurrent caller and is not part of
these claims).  Returns the loop's outcome and the log of sleep durations. -/
def waitForAuthorization (poll : Nat → PollResult) :
    Nat → Nat → Rat → Except String QwenTokenResponse × List Rat
  | 0, _, _ => (.error authorizationTimeoutMsg, [])
  | fuel + 1, k, interval =>
    match poll k with
    | .pending =>
      let r := waitForAuthorization poll fuel (k + 1) interval
      (r.1, interval :: r.2)
    | .slowDown =>
      let i2 := min (interval * (3 / 2)) 10000
      let r := waitForAuthorization poll fuel (k + 1) i2
      (r.1, i2 :: r.2)
    | .success resp => (.ok resp, [])

/-- C5: a `slow_down` response updates the interval to
`min(oldInterval * 1.5, 10000)`, sleeps for exactly that new interval, and
retries; the updated interval is at most 10000 ms, and any sequence of one
or more `slow_down` updates leaves the interval at most 10000 ms whatever
it started at. -/
theorem c5_slow_down_backoff (poll : Nat → PollResult) (fuel k : Nat)
    (i : Rat) (hsd : poll k = .slowDown) :
    waitForAuthorization poll (fuel + 1) k i =
      ((waitForAuthorization poll fuel (k + 1) (min (i * (3 / 2)) 10000)).1,
        min (i * (3 / 2)) 10000 ::
          (waitForAuthorization poll fuel (k + 1) (min (i * (3 / 2)) 10000)).2) ∧
    min (i * (3 / 2)) 10000 ≤ 10000 ∧
    (∀ n : Nat, 0 < n → (fun j : Rat => min (j * (3 / 2)) 10000)^[n] i ≤ 10000) := by
  refine ⟨by simp [waitForAuthorization, hsd], min_le_right _ _, ?_⟩
  intro n hn
  cases n with
  | zero => omega
  | succ m =>
    rw [Function.iterate_succ_apply']
    exact min_le_right _ _

/-- A scripted endpoint that always answers `slow_down`. -/
def pollAlwaysSlow : Nat → PollResult := fun _ => .slowDown

/-- Witness for C5: one `slow_down` step from 9000 ms caps at 10000 ms, and
three consecutive `slow_down` updates from 2000 ms stay at most 10000 ms. -/
theorem c5_slow_down_backoff_witness :
    waitForAuthorization pollAlwaysSlow 1 0 9000 =
      ((waitForAuthorization pollAlwaysSlow 0 1 (min ((9000 : Rat) * (3 / 2)) 10000)).1,
        min ((9000 : Rat) * (3 / 2)) 10000 ::
          (waitForAuthorization pollAlwaysSlow 0 1 (min ((9000 : Rat) * (3 / 2)) 10000)).2) ∧
    min ((9000 : Rat) * (3 / 2)) 10000 ≤ 10000 ∧
    (fun j : Rat => min (j * (3 / 2)) 10000)^[3] 2000 ≤ 10000 :=
  ⟨(c5_slow_down_backoff pollAlwaysSlow 0 0 9000 rfl).1,
   (c5_slow_down_backoff pollAlwaysSlow 0 0 9000 rfl).2.1,
   (c5_slow_down_backoff pollAlwaysSlow 0 0 2000 rfl).2.2 3 (by decide)⟩

def respC6 : QwenTokenResponse :=
  { access_token := "tok", token_type := "Bearer", expires_in := 3600,
    refresh_token := none }

/-- An endpoint whose first poll is `authorization_pending` and whose next
poll would succeed. -/
def pollPendingThenSuccess : Nat → PollResult := fun k =>
  if k = 0 then .pending else .success respC6

/-- Counterexample to C6 as stated: with `maxPollAttempts = 1`, a single
`authorization_pending` response exhausts the attempt budget and produces
the authorization-timeout failure even though the very next poll would have
succeeded; with budget 2 the same script succeeds.  So pending responses do
count toward the maximum attempt count. -/
theorem c6_pending_counts_counterexample :
    waitForAuthorization pollPendingThenSuccess 1 0 2000 =
      (.error authorizationTimeoutMsg, [2000]) ∧
    waitForAuthorization pollPendingThenSuccess 2 0 2000 =
      (.ok respC6, [2000]) := by
  constructor <;> rfl

/-- C6 (amended): an `authorization_pending` response sleeps for the current
`pollIntervalMs` and retries with the interval unchanged, but it consumes
one of the `maxPollAttempts` loop iterations like any other poll; when the
remaining attempt budget reaches zero the loop fails with the
authorization-timeout error. -/
theorem c6_pending_sleeps_and_counts (poll : Nat → PollResult)
    (fuel k : Nat) (i : Rat) (hp : poll k = .pending) :
    waitForAuthorization poll (fuel + 1) k i =
      ((waitForAuthorization poll fuel (k + 1) i).1,
        i :: (waitForAuthorization poll fuel (k + 1) i).2) ∧
    waitForAuthorization poll 0 k i = (.error authorizationTimeoutMsg, []) :=
  ⟨by simp [waitForAuthorization, hp], rfl⟩

/-- Witness for C6 (amended) on the concrete pending-then-success script. -/
theorem c6_pending_sleeps_and_counts_witness :
    waitForAuthorization pollPendingThenSuccess 1 0 2000 =
      ((waitForAuthorization pollPendingThenSuccess 0 1 2000).1,
        2000 :: (waitForAuthorization pollPendingThenSuccess 0 1 2000).2) ∧
    waitForAuthorization pollPendingThenSuccess 0 0 2000 =
      (.error authorizationTimeoutMsg, []) :=
  c6_pending_sleeps_and_counts pollPendingThenSuccess 0 0 2000 rfl

/-- C7: OAuth token staleness is decided against `now + 300000 ms`, never
against `now` alone: a token expiring in 4 minutes (`now + 240000`) is stale
— `getToken` takes the refresh path, whatever the refresh outcome — while a
token expiring in 6 minutes (`now + 360000`) is not: `getToken` returns the
stored access token unchanged without consulting the refresh outcome. -/
theorem c7_staleness_buffer (now : Int) (st st6 : OAuthState)
    (outcome : RefreshOutcome)
    (h4 : st.tokenExpiresAt = now + 240000)
    (h6 : st6.tokenExpiresAt = now + 360000) :
    shouldRefresh now st.tokenExpiresAt = true ∧
    shouldRefresh now st6.tokenExpiresAt = false ∧
    st.getToken now outcome =
      (let r := st.refresh now outcome
       if r.1 then (r.2.accessToken, r.2) else (none, r.2)) ∧
    st6.getToken now outcome = (st6.accessToken, st6) := by
  have hs4 : shouldRefresh now st.tokenExpiresAt = true := by
    simp only [shouldRefresh, h4, refreshBufferSeconds, decide_eq_true_eq]
    omega
  have hs6 : shouldRefresh now st6.tokenExpiresAt = false := by
    simp only [shouldRefresh, h6, refreshBufferSeconds,
      decide_eq_false_iff_not]
    omega
  refine ⟨hs4, hs6, ?_, ?_⟩
  · simp [OAuthState.getToken, hs4]
  · simp [OAuthState.getToken, hs6]

/-- Witness for C7 at `now = 1000000` with concrete provider states. -/
theorem c7_staleness_buffer_witness :
    shouldRefresh 1000000 (OAuthState.mk (some "a") (some "r") 1240000 true).tokenExpiresAt = true ∧
    shouldRefresh 1000000 (OAuthState.mk (some "b") (some "r") 1360000 true).tokenExpiresAt = false ∧
    (OAuthState.mk (some "a") (some "r") 1240000 true).getToken 1000000 .failure =
      (let r := (OAuthState.mk (some "a") (some "r") 1240000 true).refresh 1000000 .failure
       if r.1 then (r.2.accessToken, r.2) else (none, r.2)) ∧
    (OAuthState.mk (some "b") (some "r") 1360000 true).getToken 1000000 .failure =
      ((OAuthState.mk (some "b") (some "r") 1360000 true).accessToken,
        OAuthState.mk (some "b") (some "r") 1360000 true) :=
  c7_staleness_buffer 1000000 (OAuthState.mk (some "a") (some "r") 1240000 true)
    (OAuthState.mk (some "b") (some "r") 1360000 true) .failure rfl rfl

/-- C8: whenever the OAuth refresh fails — the refresh token is absent, or
the refresh request is rejected — `refresh()` returns `false` (it never
throws: every failure is caught and turned into this return) and leaves the
provider unauthenticated: the state is the old one with
`authenticated := false`, so `isAuthenticated()` is `false` at any time. -/
theorem c8_refresh_failure_unauthenticated
    (st : OAuthState) (now later : Int) (outcome : RefreshOutcome)
    (hfail : st.refreshToken = none ∨ outcome = .failure) :
    st.refresh now outcome = (false, { st with authenticated := false }) ∧
    ((st.refresh now outcome).2.isAuthenticated later = false) := by
  have h : st.refresh now outcome = (false, { st with authenticated := false }) := by
    rcases hfail with h | h
    · simp [OAuthState.refresh, h]
    · cases hrt : st.refreshToken <;> simp [OAuthState.refresh, hrt, h]
  exact ⟨h, by simp [h, OAuthState.isAuthenticated]⟩

/-- Witness for C8: both failure modes at a concrete state. -/
theorem c8_refresh_failure_unauthenticated_witness :
    ((OAuthState.mk (some "a") none 99 true).refresh 0 .failure =
      (false, OAuthState.mk (some "a") none 99 false) ∧
     ((OAuthState.mk (some "a") none 99 true).refresh 0 .failure).2.isAuthenticated 5 = false) ∧
    ((OAuthState.mk (some "a") (some "r") 99 true).refresh 0 .failure =
      (false, OAuthState.mk (some "a") (some "r") 99 false) ∧
     ((OAuthState.mk (some "a") (some "r") 99 true).refresh 0 .failure).2.isAuthenticated 5 = false) :=
  ⟨c8_refresh_failure_unauthenticated (OAuthState.mk (some "a") none 99 true) 0 5
      .failure (Or.inl rfl),
   c8_refresh_failure_unauthenticated (OAuthState.mk (some "a") (some "r") 99 true) 0 5
      .failure (Or.inr rfl)⟩

/-- C9: for both providers, when the current token is stale
(`shouldRefresh` holds) and the refresh attempt fails, `getToken()` returns
`null` — not the stale token, and without throwing (both `getToken`
embeddings are total and every failure path yields `none`).  For the OAuth
provider a missing refresh token fails the same way. -/
theorem c9_stale_refresh_failure_null
    (st : OAuthState) (jst : JwtState) (now : Int) (outcome : RefreshOutcome)
    (hstale : shouldRefresh now st.tokenExpiresAt = true)
    (hjstale : shouldRefresh now jst.tokenExpiresAt = true)
    (hfail : st.refreshToken = none ∨ outcome = .failure) :
    (st.getToken now outcome).1 = none ∧
    (jst.getToken now .failure).1 = none := by
  constructor
  · have h : st.refresh now outcome = (false, { st with authenticated := false }) := by
      rcases hfail with h | h
      · simp [OAuthState.refresh, h]
      · cases hrt : st.refreshToken <;> simp [OAuthState.refresh, hrt, h]
    simp [OAuthState.getToken, hstale, h]
  · simp [JwtState.getToken, JwtState.refresh, hjstale]

/-- Witness for C9: stale tokens (`expiresAt = now`) and failing refreshes. -/
theorem c9_stale_refresh_failure_null_witness :
    ((OAuthState.mk (some "a") (some "r") 1000 true).getToken 1000 .failure).1 = none ∧
    ((JwtState.mk (some "j") 1000 true).getToken 1000 .failure).1 = none :=
  c9_stale_refresh_failure_null (OAuthState.mk (some "a") (some "r") 1000 true)
    (JwtState.mk (some "j") 1000 true) 1000 .failure (by decide) (by decide)
    (Or.inr rfl)

/-! ### Credential encryption (encryption module: `encrypt` / `decrypt`)

`encrypt` derives a key with `scryptSync(password-or-machine-key, salt, 32)`,
encrypts with AES-256-GCM under a fresh 16-byte IV, and stores every binary
field base64-encoded in an envelope with `version = 1`.  `decrypt` rejects
any other version, rebuilds the key from the stored salt, and converts any
GCM failure (`decipher.final()` throwing on tag mismatch) into the single
generic decryption-failed error.

The Node `crypto` primitives are parameters gathered in `NodeCrypto`:
`scryptSync` (deterministic KDF), `gcmEncrypt` (key, IV, plaintext ↦
ciphertext and auth tag — `cipher.update`+`final`+`getAuthTag`), and
`gcmDecrypt` (key, IV, tag, ciphertext ↦ plaintext, or `none` when
authentication fails — the `try` block around `decipher.final()`).
`machineKey` is the `generateMachineKey()` fallback used when the password
argument is absent or empty (JS `password || generateMachineKey()`).
Plaintexts are their UTF-8 byte lists (`Buffer.from(s, "utf8")` /
`toString("utf8")` is a bijection between JS strings and their UTF-8 bytes,
so the round trip over byte lists covers empty, unicode and >10 KB
plaintexts alike). -/

structure NodeCrypto where
  scryptSync : String → List Nat → List Nat
  gcmEncrypt : List Nat → List Nat → List Nat → List Nat × List Nat
  gcmDecrypt : List Nat → List Nat → List Nat → List Nat → Option (List Nat)
  machineKey : String

/-- AES-GCM decryption inverts encryption under the same key and IV
(a guarantee of the Node implementation, stated for byte inputs). -/
def NodeCrypto.gcmRoundTrip (nc : NodeCrypto) : Prop :=
  ∀ key iv pt, (∀ b ∈ pt, b < 256) →
    nc.gcmDecrypt key iv (nc.gcmEncrypt key iv pt).2 (nc.gcmEncrypt key iv pt).1 =
      some pt

/-- AES-GCM ciphertext and tag are byte lists. -/
def NodeCrypto.gcmOutputsBytes (nc : NodeCrypto) : Prop :=
  ∀ key iv pt,
    (∀ b ∈ (nc.gcmEncrypt key iv pt).1, b < 256) ∧
    (∀ b ∈ (nc.gcmEncrypt key iv pt).2, b < 256)

/-- The `EncryptedData` envelope: base64-encoded fields plus a version. -/
structure EncryptedData where
  data : List Char
  iv : List Char
  authTag : List Char
  salt : List Char
  version : Nat
deriving DecidableEq, Repr

/-- `const key = password || generateMachineKey()` (empty string is falsy). -/
def effectiveKey (nc : NodeCrypto) (password : String) : String :=
  if password = "" then nc.machineKey else password

/-- `encrypt(plaintext, password)`, with the freshly drawn `salt` and `iv`
(`randomBytes(32)` / `randomBytes(16)`) as explicit inputs. -/
def encrypt (nc : NodeCrypto) (salt iv plaintext : List Nat)
    (password : String) : EncryptedData :=
  let key := effectiveKey nc password
  let derivedKey := nc.scryptSync key salt
  let ct := (nc.gcmEncrypt derivedKey iv plaintext).1
  let authTag := (nc.gcmEncrypt derivedKey iv plaintext).2
  { data := b64encode ct, iv := b64encode iv, authTag := b64encode authTag,
    salt := b64encode salt, version := 1 }

inductive DecryptError where
  /-- `Unsupported encryption version` (carries the offending version). -/
  | unsupportedVersion (v : Nat)
  /-- The one generic `Decryption failed: invalid key or corrupted data`. -/
  | decryptionFailed
deriving DecidableEq, Repr

/-- `decrypt(encryptedData, password)`. -/
def decrypt (nc : NodeCrypto) (e : EncryptedData) (password : String) :
    Except DecryptError (List Nat) :=
  let key := effectiveKey nc password
  if e.version ≠ 1 then .error (.unsupportedVersion e.version)
  else
    let salt := b64decode e.salt
    let iv := b64decode e.iv
    let authTag := b64decode e.authTag
    let encrypted := b64decode e.data
    let derivedKey := nc.scryptSync key salt
    match nc.gcmDecrypt derivedKey iv authTag encrypted with
    | some pt => .ok pt
    | none => .error .decryptionFailed

/-- C1: for every plaintext byte list (hence every JS string via its UTF-8
bytes — empty, unicode, or >10 KB) and every password,
`decrypt(encrypt(x, k), k)` succeeds with exactly `x`, given the GCM
round-trip and byte-output guarantees of Node crypto and byte-valued
salt and IV. -/
theorem c1_encrypt_decrypt_roundtrip (nc : NodeCrypto)
    (hrt : nc.gcmRoundTrip) (hob : nc.gcmOutputsBytes)
    (salt iv pt : List Nat) (password : String)
    (hsalt : ∀ b ∈ salt, b < 256) (hiv : ∀ b ∈ iv, b < 256)
    (hpt : ∀ b ∈ pt, b < 256) :
    decrypt nc (encrypt nc salt iv pt password) password = .ok pt := by
  obtain ⟨hct, htag⟩ :=
    hob (nc.scryptSync (effectiveKey nc password) salt) iv pt
  simp only [encrypt, decrypt]
  rw [if_neg (by simp)]
  rw [b64decode_encode salt hsalt, b64decode_encode iv hiv,
    b64decode_encode _ htag, b64decode_encode _ hct]
  rw [hrt _ _ _ hpt]

/-- A concrete instantiation of the crypto primitives satisfying the stated
guarantees (used only to witness the conditional theorems). -/
def nc0 : NodeCrypto where
  scryptSync := fun _ _ => []
  gcmEncrypt := fun _ _ pt => (pt.map (· % 256), [])
  gcmDecrypt := fun _ _ tag ct => if tag = [] then some ct else none
  machineKey := "machine"

theorem list_map_mod256 (l : List Nat) (h : ∀ b ∈ l, b < 256) :
    l.map (· % 256) = l := by
  induction l with
  | nil => rfl
  | cons a t ih =>
    have ha : a < 256 := h a (by simp)
    have ht : ∀ b ∈ t, b < 256 := fun b hb => h b (by simp [hb])
    simp [ih ht, Nat.mod_eq_of_lt ha]

theorem nc0_gcmRoundTrip : nc0.gcmRoundTrip := by
  intro key iv pt h
  simp [nc0, list_map_mod256 pt h]

theorem nc0_gcmOutputsBytes : nc0.gcmOutputsBytes := by
  intro key iv pt
  constructor
  · intro b hb
    simp only [nc0, List.mem_map] at hb
    obtain ⟨x, _, hx⟩ := hb
    omega
  · intro b hb
    simp [nc0] at hb

/-- Witness for C1: a concrete round trip. -/
theorem c1_encrypt_decrypt_roundtrip_witness :
    decrypt nc0 (encrypt nc0 [1, 2] [3] [104, 105] "pw") "pw" = .ok [104, 105] :=
  c1_encrypt_decrypt_roundtrip nc0 nc0_gcmRoundTrip nc0_gcmOutputsBytes
    [1, 2] [3] [104, 105] "pw" (by decide) (by decide) (by decide)

/-- C2: `decrypt` fails closed.  (a) Any envelope whose `version` differs
from 1 is rejected with the unsupported-version error before any decryption
is attempted (the result does not depend on the GCM primitive at all).
(b) For a version-1 envelope, whenever GCM authentication fails — wrong key
or corrupted ciphertext both make `gcmDecrypt` return `none` — `decrypt`
returns the single generic `decryptionFailed` error, which carries nothing
that could distinguish the two causes, and never any partial plaintext. -/
theorem c2_decrypt_fails_closed (nc : NodeCrypto) (e : EncryptedData)
    (password : String) :
    (e.version ≠ 1 → decrypt nc e password = .error (.unsupportedVersion e.version)) ∧
    (e.version = 1 →
      nc.gcmDecrypt (nc.scryptSync (effectiveKey nc password) (b64decode e.salt))
          (b64decode e.iv) (b64decode e.authTag) (b64decode e.data) = none →
      decrypt nc e password = .error .decryptionFailed) := by
  constructor
  · intro hv
    simp only [decrypt]
    rw [if_pos hv]
  · intro hv hgcm
    simp only [decrypt]
    rw [if_neg (by simp [hv])]
    rw [hgcm]

/-- An envelope with an unsupported version. -/
def eBadVersion : EncryptedData :=
  { data := b64encode [5], iv := b64encode [3], authTag := b64encode [1],
    salt := b64encode [2], version := 2 }

/-- A version-1 envelope whose tag fails authentication under `nc0`. -/
def eBadTag : EncryptedData :=
  { data := b64encode [5], iv := b64encode [3], authTag := b64encode [1],
    salt := b64encode [2], version := 1 }

/-- Witness for C2: both failure modes on concrete envelopes. -/
theorem c2_decrypt_fails_closed_witness :
    decrypt nc0 eBadVersion "pw" = .error (.unsupportedVersion 2) ∧
    decrypt nc0 eBadTag "pw" = .error .decryptionFailed :=
  ⟨(c2_decrypt_fails_closed nc0 eBadVersion "pw").1 (by decide),
   (c2_decrypt_fails_closed nc0 eBadTag "pw").2 rfl (by decide)⟩

/-! ### PKCE (`generateCodeVerifier` / `generateCodeChallenge` /
`generatePKCEPair` in `src/auth/jwt.ts`)

`randomBytes(32)` enters as the 32-byte input `randomOut`; SHA-256 (a Node
primitive) as a function parameter.  `hash.update(codeVerifier)` hashes the
UTF-8 bytes of the verifier string; the verifier consists of base64url
characters, which are ASCII, so its UTF-8 bytes are its character codes
(`List.map Char.toNat`). -/

def generateCodeVerifier (randomOut : List Nat) : List Char :=
  b64urlEncode randomOut

def generateCodeChallenge (sha256 : List Nat → List Nat)
    (codeVerifier : List Char) : List Char :=
  b64urlEncode (sha256 (codeVerifier.map Char.toNat))

def generatePKCEPair (sha256 : List Nat → List Nat) (randomOut : List Nat) :
    List Char × List Char :=
  let codeVerifier := generateCodeVerifier randomOut
  let codeChallenge := generateCodeChallenge sha256 codeVerifier
  (codeVerifier, codeChallenge)

/-- C4: for every PKCE pair built from 32 random bytes, the challenge is the
base64url encoding of SHA-256 of the verifier's (UTF-8 = ASCII) bytes, and
the verifier is the base64url encoding of those 32 bytes: 43 characters,
all in the URL-safe alphabet (hence ASCII, justifying the UTF-8 reading). -/
theorem c4_pkce_pair (sha256 : List Nat → List Nat) (randomOut : List Nat)
    (hlen : randomOut.length = 32) :
    (generatePKCEPair sha256 randomOut).2 =
      b64urlEncode (sha256 ((generatePKCEPair sha256 randomOut).1.map Char.toNat)) ∧
    (generatePKCEPair sha256 randomOut).1 = b64urlEncode randomOut ∧
    (generatePKCEPair sha256 randomOut).1.length = 43 ∧
    (∀ ch ∈ (generatePKCEPair sha256 randomOut).1, ch ∈ base64urlChars) ∧
    (∀ ch ∈ (generatePKCEPair sha256 randomOut).1, ch.toNat < 128) := by
  refine ⟨rfl, rfl, ?_, ?_, ?_⟩
  · simp only [generatePKCEPair, generateCodeVerifier]
    rw [b64urlEncode_length, hlen]
  · exact b64urlEncode_mem randomOut
  · intro ch hch
    exact base64urlChars_ascii ch
      (b64urlEncode_mem randomOut ch hch)

/-- Witness for C4 at 32 concrete bytes and a concrete hash function. -/
theorem c4_pkce_pair_witness :
    (generatePKCEPair (fun _ => [0]) (List.range 32)).2 =
      b64urlEncode ((fun _ : List Nat => [0])
        ((generatePKCEPair (fun _ => [0]) (List.range 32)).1.map Char.toNat)) ∧
    (generatePKCEPair (fun _ => [0]) (List.range 32)).1 =
      b64urlEncode (List.range 32) ∧
    (generatePKCEPair (fun _ => [0]) (List.range 32)).1.length = 43 ∧
    (∀ ch ∈ (generatePKCEPair (fun _ => [0]) (List.range 32)).1,
      ch ∈ base64urlChars) ∧
    (∀ ch ∈ (generatePKCEPair (fun _ => [0]) (List.range 32)).1,
      ch.toNat < 128) :=
  c4_pkce_pair (fun _ => [0]) (List.range 32) (by decide)
